import Mathlib

/-!
Verification of the Docker container lifecycle manager and command executor
(`minisweagent/environments/docker.py`): a shallow embedding of its
configuration model, acquisition logic (start-new vs adopt-existing),
command execution, and cleanup, with external engine invocations modelled
as an oracle describing each spawned process's wall-clock duration, output
and exit status.
-/

/-- Python truthiness of an optional string field (`None` and `""` are falsy). -/
def pyTruthyStr : Option String → Bool
  | none => false
  | some s => !s.isEmpty

/-- Mirrors `DockerEnvironmentConfig` (a pydantic model): all fields with their
source defaults. `env` is an insertion-ordered dict, modelled as a list of
pairs; `manage_container : bool | None` is a tri-state flag. Timeouts are
seconds. The `executable` default normally comes from the process environment
variable `MSWEA_DOCKER_EXECUTABLE` with fallback `"docker"`; we take the
fallback as the default and let any value be supplied explicitly. -/
structure DockerEnvironmentConfig where
  image : Option String := none
  cwd : String := "/"
  container_id : Option String := none
  container_name : Option String := none
  manage_container : Option Bool := none
  env : List (String × String) := []
  forward_env : List String := []
  timeout : Nat := 30
  executable : String := "docker"
  run_args : List String := ["--rm"]
  container_timeout : String := "2h"
  pull_timeout : Nat := 120
deriving DecidableEq

/-- Python exceptions that the embedded code can raise. -/
inductive PyError where
  | valueError (msg : String)
  | runtimeError (msg : String)
  | calledProcessError (returncode : Int)
  | timeoutExpired
  | assertionError (msg : String)
deriving DecidableEq

/-- Behavior of one external process the engine would spawn: how long it runs
(seconds of wall-clock), what it writes to its captured output stream, and its
exit status. -/
structure ProcessBehavior where
  duration : Nat
  stdout : String
  returncode : Int
deriving DecidableEq

/-- One observable external engine invocation: a blocking `subprocess.run`
with its argument vector, wall-clock bound and whether stderr is merged into
stdout, or a detached `subprocess.Popen(..., shell=True)` of a shell string. -/
inductive EngineCall where
  | run (cmd : List String) (timeoutSec : Nat) (mergeStderr : Bool)
  | popenShell (cmd : String)
deriving DecidableEq

/-- Python's `str.strip()`: drop leading and trailing whitespace. Implemented
structurally over the character list so that concrete instances evaluate. -/
def pyStrip (s : String) : String :=
  ⟨((s.data.dropWhile Char.isWhitespace).reverse.dropWhile Char.isWhitespace).reverse⟩

/-- Python's `str.lower()` (ASCII case folding suffices for the state strings
compared here). -/
def pyLower (s : String) : String :=
  ⟨s.data.map Char.toLower⟩

/-- `subprocess.run(cmd, timeout=t)`: raises `TimeoutExpired` when the process
outlives the bound, otherwise yields its output and exit status. -/
def runProcess (b : ProcessBehavior) (timeoutSec : Nat) :
    Except PyError (String × Int) :=
  if b.duration > timeoutSec then Except.error PyError.timeoutExpired
  else Except.ok (b.stdout, b.returncode)

/-- `subprocess.run(cmd, timeout=t, check=True)`: additionally raises
`CalledProcessError` on a nonzero exit status. -/
def runCheck (b : ProcessBehavior) (timeoutSec : Nat) : Except PyError String :=
  match runProcess b timeoutSec with
  | Except.error e => Except.error e
  | Except.ok (out, rc) =>
      if rc ≠ 0 then Except.error (PyError.calledProcessError rc)
      else Except.ok out

/-- Argument vector of the inspect-by-name call resolving a container name to
its canonical id (`docker inspect -f \x7b\x7b.Id\x7d\x7d name`). -/
def inspectIdCmd (cfg : DockerEnvironmentConfig) (name : String) : List String :=
  [cfg.executable, "inspect", "-f", "\x7b\x7b.Id\x7d\x7d", name]

/-- Argument vector of the running-state inspect call
(`docker inspect -f \x7b\x7b.State.Running\x7d\x7d name`). -/
def inspectRunningCmd (cfg : DockerEnvironmentConfig) (name : String) : List String :=
  [cfg.executable, "inspect", "-f", "\x7b\x7b.State.Running\x7d\x7d", name]

/-- Mirrors `DockerEnvironment._resolve_container_id`: two bounded inspect
calls (id, then running-state), failing on a missing name, an empty resolved
id, or a state other than `"true"` (case-insensitive, stripped). The oracle
gives each spawned process's behavior in call order; the returned list is the
trace of engine calls actually issued. -/
def resolveContainerId (cfg : DockerEnvironmentConfig)
    (container_name : Option String) (oracle : Nat → ProcessBehavior) :
    Except PyError String × List EngineCall :=
  if pyTruthyStr container_name = false then
    (Except.error (PyError.valueError "container_name is required to resolve container ID."), [])
  else
    let name := container_name.getD ""
    let call1 := EngineCall.run (inspectIdCmd cfg name) cfg.pull_timeout false
    match runCheck (oracle 0) cfg.pull_timeout with
    | Except.error e => (Except.error e, [call1])
    | Except.ok out1 =>
        let container_id := pyStrip out1
        if container_id.isEmpty then
          (Except.error (PyError.runtimeError ("Could not resolve container ID for " ++ name ++ ".")), [call1])
        else
          let call2 := EngineCall.run (inspectRunningCmd cfg name) cfg.pull_timeout false
          match runCheck (oracle 1) cfg.pull_timeout with
          | Except.error e => (Except.error e, [call1, call2])
          | Except.ok out2 =>
              let state := pyLower (pyStrip out2)
              if state ≠ "true" then
                (Except.error (PyError.runtimeError ("Container " ++ name ++ " is not running.")), [call1, call2])
              else
                (Except.ok container_id, [call1, call2])

/-- Argument vector of the start call built by `_start_container`:
`docker run -d --name <name> -w <cwd> <run_args...> <image> sleep <duration>`. -/
def startContainerCmd (cfg : DockerEnvironmentConfig) (container_name : String) :
    List String :=
  [cfg.executable, "run", "-d", "--name", container_name, "-w", cfg.cwd]
    ++ cfg.run_args ++ [cfg.image.getD "", "sleep", cfg.container_timeout]

/-- Mirrors `DockerEnvironment._start_container`: requires a truthy image,
synthesizes the container name `minisweagent-<uuid hex prefix>` (the random
suffix is a parameter here), issues one start call bounded by `pull_timeout`
with `check=True`, and on success returns the call's stripped stdout as the
new container id. -/
def startContainer (cfg : DockerEnvironmentConfig) (uuidHex8 : String)
    (oracle : Nat → ProcessBehavior) : Except PyError String × List EngineCall :=
  if pyTruthyStr cfg.image = false then
    (Except.error (PyError.valueError "image is required when starting a new container."), [])
  else
    let container_name := "minisweagent-" ++ uuidHex8
    let call := EngineCall.run (startContainerCmd cfg container_name) cfg.pull_timeout false
    match runCheck (oracle 0) cfg.pull_timeout with
    | Except.error e => (Except.error e, [call])
    | Except.ok out => (Except.ok (pyStrip out), [call])

/-- State of a fully constructed `DockerEnvironment` instance: the (frozen)
configuration, the derived `_manage_container` ownership flag, and the
resolved `container_id` handle. -/
structure DockerEnvironment where
  config : DockerEnvironmentConfig
  manage_container : Bool
  container_id : Option String
deriving DecidableEq

/-- Mirrors `DockerEnvironment.__init__` after config validation: compute
`_manage_container` (explicit flag if set, else true iff neither id nor name
is truthy), then either adopt `container_id` verbatim if truthy, resolve a
truthy `container_name`, or start a new container. Returns the constructed
instance (or the raised error) together with the trace of engine calls. -/
def dockerInit (cfg : DockerEnvironmentConfig) (uuidHex8 : String)
    (oracle : Nat → ProcessBehavior) :
    Except PyError DockerEnvironment × List EngineCall :=
  let manage := cfg.manage_container.getD
    (!(pyTruthyStr cfg.container_id || pyTruthyStr cfg.container_name))
  if pyTruthyStr cfg.container_id || pyTruthyStr cfg.container_name then
    if pyTruthyStr cfg.container_id then
      (Except.ok ⟨cfg, manage, cfg.container_id⟩, [])
    else
      match resolveContainerId cfg cfg.container_name oracle with
      | (Except.ok cid, tr) => (Except.ok ⟨cfg, manage, some cid⟩, tr)
      | (Except.error e, tr) => (Except.error e, tr)
  else
    match startContainer cfg uuidHex8 oracle with
    | (Except.ok cid, tr) => (Except.ok ⟨cfg, manage, some cid⟩, tr)
    | (Except.error e, tr) => (Except.error e, tr)

/-- Result dict of `execute`: merged output text and integer exit status. -/
structure ExecutionResult where
  output : String
  returncode : Int
deriving DecidableEq

/-- Mirrors the command construction in `DockerEnvironment.execute`: base
`exec` invocation with the working-directory flag, then one `-e key=value`
flag per forwarded variable present in the host environment (in
`forward_env` order), then one per explicit `env` entry, then the container
id and the login-shell wrapper around the command string. -/
def buildExecCmd (cfg : DockerEnvironmentConfig) (container_id : String)
    (hostEnv : String → Option String) (command : String) (cwd : String) :
    List String :=
  let cmd0 := [cfg.executable, "exec", "-w", cwd]
  let cmd1 := cfg.forward_env.foldl (fun acc key =>
    match hostEnv key with
    | some value => acc ++ ["-e", key ++ "=" ++ value]
    | none => acc) cmd0
  let cmd2 := cfg.env.foldl (fun acc kv => acc ++ ["-e", kv.1 ++ "=" ++ kv.2]) cmd1
  cmd2 ++ [container_id, "bash", "-lc", command]

/-- Mirrors `timeout or self.config.timeout`: a `None` or zero (falsy)
override falls back to the configured default. -/
def effTimeout : Option Nat → Nat → Nat
  | none, d => d
  | some t, d => if t = 0 then d else t

/-- Mirrors `cwd or self.config.cwd`: an empty (falsy) override falls back
to the configured default. -/
def pyOrStr (a b : String) : String := if a.isEmpty then b else a

/-- Mirrors `DockerEnvironment.execute`: effective cwd is the override unless
empty (Python `cwd or self.config.cwd`), the container id must be truthy
(`assert`), the exec invocation is built by `buildExecCmd`, and the process
runs bounded by `effTimeout` with stderr merged into stdout and no
`check=True` (a nonzero exit status is returned as data, never raised). -/
def execute (e : DockerEnvironment) (hostEnv : String → Option String)
    (command : String) (cwd : String) (timeout : Option Nat)
    (behavior : ProcessBehavior) :
    Except PyError ExecutionResult × List EngineCall :=
  let cwdEff := pyOrStr cwd e.config.cwd
  if pyTruthyStr e.container_id = false then
    (Except.error (PyError.assertionError "Container not started"), [])
  else
    let cmd := buildExecCmd e.config (e.container_id.getD "") hostEnv command cwdEff
    let bound := effTimeout timeout e.config.timeout
    let call := EngineCall.run cmd bound true
    match runProcess behavior bound with
    | Except.error err => (Except.error err, [call])
    | Except.ok (out, rc) => (Except.ok ⟨out, rc⟩, [call])

/-- The attributes of an instance that `cleanup` reads. `container_id_attr`
is doubly optional: the outer layer models whether the attribute exists at
all on a (possibly partially constructed) instance — `getattr(self,
"container_id", None)` yields `None` when it is absent. -/
structure CleanupView where
  executable : String
  manage_container : Bool
  container_id_attr : Option (Option String)
deriving DecidableEq

/-- The detached shell pipeline `cleanup` spawns: bounded stop, or-else
forced remove, all output discarded, backgrounded. -/
def cleanupCmdString (executable container_id : String) : String :=
  "(timeout 60 " ++ executable ++ " stop " ++ container_id ++ " || "
    ++ executable ++ " rm -f " ++ container_id ++ ") >/dev/null 2>&1 &"

/-- Mirrors `DockerEnvironment.cleanup`: when the ownership flag is set and
the `container_id` attribute is present and not `None`, spawn the detached
stop-or-remove pipeline; otherwise do nothing. It mutates no attribute and
raises nothing (it is a total function into a plain pair), so repeated calls
see the same state. -/
def cleanup (s : CleanupView) : CleanupView × List EngineCall :=
  if s.manage_container then
    match s.container_id_attr.getD none with
    | some cid => (s, [EngineCall.popenShell (cleanupCmdString s.executable cid)])
    | none => (s, [])
  else (s, [])

/-- View of a fully constructed instance as what `cleanup` reads: every
attribute is present. -/
def DockerEnvironment.toCleanupView (e : DockerEnvironment) : CleanupView :=
  ⟨e.config.executable, e.manage_container, some e.container_id⟩

/-- Forwarded-environment pairs: each name of the forward-list, in order,
paired with its value in the invoking process's environment; absent names
are skipped. -/
def forwardedPairs (forward_env : List String)
    (hostEnv : String → Option String) : List (String × String) :=
  forward_env.filterMap (fun key => (hostEnv key).map (fun v => (key, v)))

/-- The `-e key=value` flag sequence for a list of environment pairs. -/
def envFlags (pairs : List (String × String)) : List String :=
  pairs.foldr (fun kv acc => "-e" :: (kv.1 ++ "=" ++ kv.2) :: acc) []

/-- Modelled from the spec: the container engine is an external collaborator,
and the spec fixes its flag semantics — environment flags apply in order, a
later flag for the same name overwriting an earlier one ("apply second, so
they overwrite"). The effective value of a name is therefore the value of its
last flag. -/
def effectiveEnvValue (pairs : List (String × String)) (name : String) :
    Option String :=
  ((pairs.filter (fun kv => kv.1 = name)).getLast?).map (fun kv => kv.2)


theorem envFlags_append (l1 l2 : List (String × String)) :
    envFlags (l1 ++ l2) = envFlags l1 ++ envFlags l2 := by
  induction l1 with
  | nil => simp [envFlags]
  | cons kv rest ih => simp [envFlags] at ih ⊢; simp [ih]

theorem foldl_forward_env (hostEnv : String → Option String) (l : List String)
    (acc : List String) :
    l.foldl (fun acc key =>
      match hostEnv key with
      | some value => acc ++ ["-e", key ++ "=" ++ value]
      | none => acc) acc
    = acc ++ envFlags (forwardedPairs l hostEnv) := by
  induction l generalizing acc with
  | nil => simp [forwardedPairs, envFlags]
  | cons k rest ih =>
    cases h : hostEnv k with
    | none =>
      simp only [List.foldl_cons, h, forwardedPairs, List.filterMap_cons]
      rw [ih]
      simp [forwardedPairs, h]
    | some v =>
      simp only [List.foldl_cons, h, forwardedPairs, List.filterMap_cons]
      rw [ih]
      simp [forwardedPairs, envFlags, h]

theorem foldl_env_flags (l : List (String × String)) (acc : List String) :
    l.foldl (fun acc kv => acc ++ ["-e", kv.1 ++ "=" ++ kv.2]) acc
      = acc ++ envFlags l := by
  induction l generalizing acc with
  | nil => simp [envFlags]
  | cons kv rest ih =>
    simp only [List.foldl_cons]
    rw [ih]
    simp [envFlags]

theorem buildExecCmd_eq (cfg : DockerEnvironmentConfig) (container_id : String)
    (hostEnv : String → Option String) (command : String) (cwd : String) :
    buildExecCmd cfg container_id hostEnv command cwd
      = [cfg.executable, "exec", "-w", cwd]
        ++ envFlags (forwardedPairs cfg.forward_env hostEnv ++ cfg.env)
        ++ [container_id, "bash", "-lc", command] := by
  simp only [buildExecCmd]
  rw [foldl_forward_env, foldl_env_flags, envFlags_append]
  simp

theorem getLast?_append_singleton {α : Type} (xs : List α) (a : α) :
    (xs ++ [a]).getLast? = some a := by
  induction xs with
  | nil => rfl
  | cons x rest ih =>
    rw [List.cons_append, List.getLast?_cons]
    simp only [ih]
    cases rest <;> simp_all [List.getLast?_cons]

theorem effectiveEnvValue_append_unique (fwd env : List (String × String))
    (name ve : String)
    (henv : env.filter (fun kv => kv.1 = name) = [(name, ve)]) :
    effectiveEnvValue (fwd ++ env) name = some ve := by
  unfold effectiveEnvValue
  rw [List.filter_append, henv, getLast?_append_singleton]
  rfl

theorem pyOrStr_empty (s : String) : pyOrStr "" s = s := rfl

theorem pyOrStr_self (s : String) : pyOrStr s s = s := by
  unfold pyOrStr
  exact ite_self s

theorem cleanup_fst (s : CleanupView) : (cleanup s).1 = s := by
  unfold cleanup
  split
  · split <;> rfl
  · rfl

theorem runCheck_ok (b : ProcessBehavior) (t : Nat)
    (hdur : b.duration ≤ t) (hrc : b.returncode = 0) :
    runCheck b t = Except.ok b.stdout := by
  simp [runCheck, runProcess, Nat.not_lt.mpr hdur, hrc]

theorem dockerInit_ok_fields (cfg : DockerEnvironmentConfig) (uuidHex8 : String)
    (oracle : Nat → ProcessBehavior) (e : DockerEnvironment) (tr : List EngineCall)
    (h : dockerInit cfg uuidHex8 oracle = (Except.ok e, tr)) :
    e.config = cfg
    ∧ e.manage_container = cfg.manage_container.getD
        (!(pyTruthyStr cfg.container_id || pyTruthyStr cfg.container_name)) := by
  simp only [dockerInit] at h
  split at h
  · split at h
    · simp only [Prod.mk.injEq, Except.ok.injEq] at h
      obtain ⟨he, -⟩ := h
      subst he
      exact ⟨rfl, rfl⟩
    · split at h
      · simp only [Prod.mk.injEq, Except.ok.injEq] at h
        obtain ⟨he, -⟩ := h
        subst he
        exact ⟨rfl, rfl⟩
      · simp at h
  · split at h
    · simp only [Prod.mk.injEq, Except.ok.injEq] at h
      obtain ⟨he, -⟩ := h
      subst he
      exact ⟨rfl, rfl⟩
    · simp at h

theorem execute_trace (e : DockerEnvironment) (hostEnv : String → Option String)
    (command cwd : String) (timeout : Option Nat) (behavior : ProcessBehavior)
    (hcid : pyTruthyStr e.container_id = true) :
    (execute e hostEnv command cwd timeout behavior).2
      = [EngineCall.run
          (buildExecCmd e.config (e.container_id.getD "") hostEnv command
            (pyOrStr cwd e.config.cwd))
          (effTimeout timeout e.config.timeout) true] := by
  simp only [execute, hcid]
  rcases hrp : runProcess behavior (effTimeout timeout e.config.timeout) with err | ok
  · simp [hrp]
  · simp [hrp]

/-- Claim C1 as frozen is false: `cleanup` sets no flag and clears no
attribute, so on an owned, present handle a second call issues the very same
detached stop-or-remove engine call again — an additional observable external
engine call. Concretely, for the instance with executable `docker`, ownership
true and handle `abc123`, the first call issues the teardown pipeline and the
call after it issues it once more. -/
theorem claim_C1_counterexample :
    (cleanup (⟨"docker", true, some (some "abc123")⟩ : CleanupView)).2
      = [EngineCall.popenShell
          "(timeout 60 docker stop abc123 || docker rm -f abc123) >/dev/null 2>&1 &"]
    ∧ (cleanup (cleanup (⟨"docker", true, some (some "abc123")⟩ : CleanupView)).1).2
      = [EngineCall.popenShell
          "(timeout 60 docker stop abc123 || docker rm -f abc123) >/dev/null 2>&1 &"] := by
  constructor <;> rfl

/-- Claim C1 (amended): `cleanup` never raises (it is a total function) and
never mutates the instance; a repeated call issues exactly the same engine
calls as the first — so on an owned, present handle the second call repeats
the one detached teardown call (idempotent only at the engine level, where
stop/remove of a gone container are no-ops), rather than issuing none; and it
issues no call at all, without raising, when the handle attribute is absent
(partially constructed instance) or when the instance does not own the
handle. -/
theorem claim_C1_cleanup_idempotent (s : CleanupView) :
    (cleanup s).1 = s
    ∧ (cleanup (cleanup s).1).2 = (cleanup s).2
    ∧ (s.container_id_attr = none → (cleanup s).2 = [])
    ∧ (s.manage_container = false → (cleanup s).2 = []) := by
  refine ⟨cleanup_fst s, by rw [cleanup_fst], ?_, ?_⟩
  · intro h
    unfold cleanup
    rw [h]
    split <;> rfl
  · intro h
    unfold cleanup
    rw [h]
    rfl

/-- Witness for C1's amended theorem at a concrete partially-constructed
instance: the `container_id` attribute is absent, and cleanup is a no-op. -/
theorem claim_C1_cleanup_idempotent_witness :
    (cleanup (⟨"docker", true, none⟩ : CleanupView)).1
        = (⟨"docker", true, none⟩ : CleanupView)
    ∧ (cleanup (cleanup (⟨"docker", true, none⟩ : CleanupView)).1).2
        = (cleanup (⟨"docker", true, none⟩ : CleanupView)).2
    ∧ ((⟨"docker", true, none⟩ : CleanupView).container_id_attr = none →
        (cleanup (⟨"docker", true, none⟩ : CleanupView)).2 = [])
    ∧ ((⟨"docker", true, none⟩ : CleanupView).manage_container = false →
        (cleanup (⟨"docker", true, none⟩ : CleanupView)).2 = []) :=
  claim_C1_cleanup_idempotent ⟨"docker", true, none⟩

/-- Claim C2 as frozen is false: it says ownership is true whenever a new
context was started by this instance, but the explicit configuration flag
also wins when forced *false*. With `image = "alpine"` and
`manage_container = false`, acquisition starts a new container (the trace
holds exactly one start call), yet the derived ownership flag is `false`. -/
theorem claim_C2_counterexample :
    dockerInit { image := some "alpine", manage_container := some false }
        "deadbeef" (fun _ => ⟨0, "cid123\n", 0⟩)
      = (Except.ok ⟨{ image := some "alpine", manage_container := some false },
            false, some "cid123"⟩,
         [EngineCall.run
            ["docker", "run", "-d", "--name", "minisweagent-deadbeef", "-w", "/",
             "--rm", "alpine", "sleep", "2h"] 120 false]) := by
  rfl

/-- Claim C2 (amended): the ownership flag of a successfully constructed
instance equals the explicitly configured flag when one is supplied (true or
false); when the flag is unspecified it is true exactly when neither an
existing container id nor a name was supplied (i.e. exactly when this
instance starts a new context); it is derived at acquisition from the frozen
configuration, and cleanup never changes the instance state afterward. -/
theorem claim_C2_ownership (cfg : DockerEnvironmentConfig) (uuidHex8 : String)
    (oracle : Nat → ProcessBehavior) (e : DockerEnvironment) (tr : List EngineCall)
    (h : dockerInit cfg uuidHex8 oracle = (Except.ok e, tr)) :
    (e.manage_container = true ↔
      (cfg.manage_container = some true ∨
        (cfg.manage_container = none ∧ pyTruthyStr cfg.container_id = false
          ∧ pyTruthyStr cfg.container_name = false)))
    ∧ e.config = cfg
    ∧ (cleanup e.toCleanupView).1 = e.toCleanupView := by
  obtain ⟨hc, hm⟩ := dockerInit_ok_fields cfg uuidHex8 oracle e tr h
  refine ⟨?_, hc, cleanup_fst _⟩
  rw [hm]
  cases hmc : cfg.manage_container with
  | none =>
      cases hid : pyTruthyStr cfg.container_id <;>
        cases hname : pyTruthyStr cfg.container_name <;> simp
  | some b => cases b <;> simp

/-- Witness for C2's amended theorem: adopting an explicit container id with
the flag unspecified yields ownership false. -/
theorem claim_C2_ownership_witness :
    ((⟨{ container_id := some "abc" }, false, some "abc"⟩ :
        DockerEnvironment).manage_container = true ↔
      (({ container_id := some "abc" } :
          DockerEnvironmentConfig).manage_container = some true ∨
        (({ container_id := some "abc" } :
            DockerEnvironmentConfig).manage_container = none
          ∧ pyTruthyStr ({ container_id := some "abc" } :
              DockerEnvironmentConfig).container_id = false
          ∧ pyTruthyStr ({ container_id := some "abc" } :
              DockerEnvironmentConfig).container_name = false)))
    ∧ (⟨{ container_id := some "abc" }, false, some "abc"⟩ :
        DockerEnvironment).config = { container_id := some "abc" }
    ∧ (cleanup (⟨{ container_id := some "abc" }, false, some "abc"⟩ :
        DockerEnvironment).toCleanupView).1
      = (⟨{ container_id := some "abc" }, false, some "abc"⟩ :
          DockerEnvironment).toCleanupView :=
  claim_C2_ownership { container_id := some "abc" } "x" (fun _ => ⟨0, "", 0⟩)
    ⟨{ container_id := some "abc" }, false, some "abc"⟩ [] (by rfl)

/-- Claim C3: with no (truthy) image, container id or container name in the
configuration, acquisition fails with the configuration `ValueError` raised
by `_start_container`, with an empty engine-call trace (before any external
call), and deterministically: the result is the same for every oracle. -/
theorem claim_C3_no_image_fails (cfg : DockerEnvironmentConfig)
    (uuidHex8 : String) (oracle : Nat → ProcessBehavior)
    (him : pyTruthyStr cfg.image = false)
    (hid : pyTruthyStr cfg.container_id = false)
    (hname : pyTruthyStr cfg.container_name = false) :
    dockerInit cfg uuidHex8 oracle
      = (Except.error
          (PyError.valueError "image is required when starting a new container."),
         []) := by
  simp [dockerInit, startContainer, him, hid, hname]

/-- Witness for C3 at the all-defaults configuration. -/
theorem claim_C3_no_image_fails_witness :
    dockerInit {} "deadbeef" (fun _ => ⟨0, "", 0⟩)
      = (Except.error
          (PyError.valueError "image is required when starting a new container."),
         []) :=
  claim_C3_no_image_fails {} "deadbeef" (fun _ => ⟨0, "", 0⟩) rfl rfl rfl

/-- Claim C5: when a truthy container id is configured, acquisition adopts it
verbatim as the handle with no engine call at all (empty trace, for every
oracle — in particular no existence or liveness check), and ownership is true
exactly when explicitly forced true. -/
theorem claim_C5_adopt_id (cfg : DockerEnvironmentConfig) (uuidHex8 : String)
    (oracle : Nat → ProcessBehavior)
    (hid : pyTruthyStr cfg.container_id = true) :
    ∃ e : DockerEnvironment,
      dockerInit cfg uuidHex8 oracle = (Except.ok e, [])
      ∧ e.container_id = cfg.container_id
      ∧ (e.manage_container = true ↔ cfg.manage_container = some true) := by
  refine ⟨⟨cfg, cfg.manage_container.getD false, cfg.container_id⟩, ?_, rfl, ?_⟩
  · simp [dockerInit, hid]
  · cases hmc : cfg.manage_container with
    | none => simp
    | some b => cases b <;> simp

/-- Witness for C5: adopting the id `abc` with the ownership flag left
unspecified. -/
theorem claim_C5_adopt_id_witness :
    ∃ e : DockerEnvironment,
      dockerInit { container_id := some "abc" } "deadbeef" (fun _ => ⟨0, "", 0⟩)
          = (Except.ok e, [])
      ∧ e.container_id
          = ({ container_id := some "abc" } : DockerEnvironmentConfig).container_id
      ∧ (e.manage_container = true ↔
          ({ container_id := some "abc" } :
              DockerEnvironmentConfig).manage_container = some true) :=
  claim_C5_adopt_id { container_id := some "abc" } "deadbeef"
    (fun _ => ⟨0, "", 0⟩) rfl

/-- Claim C4: with only a container name configured (no truthy id), and the
first inspect process succeeding within its bound: if its stripped stdout is
empty, acquisition fails with the resolution `RuntimeError` after exactly the
one inspect-by-name call; if it is nonempty and the second (running-state)
inspect succeeds but does not report `true` (case-insensitive, stripped),
acquisition fails with the state `RuntimeError` after the two inspect calls;
and if it reports `true`, acquisition adopts the stripped resolved id as the
handle. -/
theorem claim_C4_adopt_name (cfg : DockerEnvironmentConfig) (uuidHex8 : String)
    (oracle : Nat → ProcessBehavior)
    (hid : pyTruthyStr cfg.container_id = false)
    (hname : pyTruthyStr cfg.container_name = true)
    (hdur0 : (oracle 0).duration ≤ cfg.pull_timeout)
    (hrc0 : (oracle 0).returncode = 0) :
    ((pyStrip (oracle 0).stdout).isEmpty = true →
      dockerInit cfg uuidHex8 oracle
        = (Except.error (PyError.runtimeError
            ("Could not resolve container ID for "
              ++ cfg.container_name.getD "" ++ ".")),
           [EngineCall.run (inspectIdCmd cfg (cfg.container_name.getD ""))
              cfg.pull_timeout false]))
    ∧ ((pyStrip (oracle 0).stdout).isEmpty = false →
        (oracle 1).duration ≤ cfg.pull_timeout →
        (oracle 1).returncode = 0 →
        (pyLower (pyStrip (oracle 1).stdout) ≠ "true" →
          dockerInit cfg uuidHex8 oracle
            = (Except.error (PyError.runtimeError
                ("Container " ++ cfg.container_name.getD ""
                  ++ " is not running.")),
               [EngineCall.run (inspectIdCmd cfg (cfg.container_name.getD ""))
                  cfg.pull_timeout false,
                EngineCall.run (inspectRunningCmd cfg (cfg.container_name.getD ""))
                  cfg.pull_timeout false]))
        ∧ (pyLower (pyStrip (oracle 1).stdout) = "true" →
            dockerInit cfg uuidHex8 oracle
              = (Except.ok ⟨cfg, cfg.manage_container.getD false,
                    some (pyStrip (oracle 0).stdout)⟩,
                 [EngineCall.run (inspectIdCmd cfg (cfg.container_name.getD ""))
                    cfg.pull_timeout false,
                  EngineCall.run (inspectRunningCmd cfg (cfg.container_name.getD ""))
                    cfg.pull_timeout false]))) := by
  have h0 := runCheck_ok (oracle 0) cfg.pull_timeout hdur0 hrc0
  refine ⟨?_, ?_⟩
  · intro hempty
    simp [dockerInit, hid, hname, resolveContainerId, h0, hempty]
  · intro hempty hdur1 hrc1
    have h1 := runCheck_ok (oracle 1) cfg.pull_timeout hdur1 hrc1
    refine ⟨?_, ?_⟩
    · intro hstate
      simp [dockerInit, hid, hname, resolveContainerId, h0, h1, hempty, hstate]
    · intro hstate
      simp [dockerInit, hid, hname, resolveContainerId, h0, h1, hempty, hstate]

/-- Concrete adopt-by-name configuration used to witness C4. -/
def cfgC4 : DockerEnvironmentConfig := { container_name := some "mycont" }

/-- Concrete oracle for C4's witness: the first inspect resolves the id
`abc123` (with surrounding whitespace), the second reports state `True`. -/
def oracleC4 : Nat → ProcessBehavior :=
  fun n => if n = 0 then ⟨0, "  abc123\n", 0⟩ else ⟨0, "True\n", 0⟩

/-- Witness for C4 at `cfgC4`/`oracleC4`: in particular its happy-path
conjunct adopts the stripped id after two inspect calls. -/
theorem claim_C4_adopt_name_witness :
    ((pyStrip (oracleC4 0).stdout).isEmpty = true →
      dockerInit cfgC4 "deadbeef" oracleC4
        = (Except.error (PyError.runtimeError
            ("Could not resolve container ID for "
              ++ cfgC4.container_name.getD "" ++ ".")),
           [EngineCall.run (inspectIdCmd cfgC4 (cfgC4.container_name.getD ""))
              cfgC4.pull_timeout false]))
    ∧ ((pyStrip (oracleC4 0).stdout).isEmpty = false →
        (oracleC4 1).duration ≤ cfgC4.pull_timeout →
        (oracleC4 1).returncode = 0 →
        (pyLower (pyStrip (oracleC4 1).stdout) ≠ "true" →
          dockerInit cfgC4 "deadbeef" oracleC4
            = (Except.error (PyError.runtimeError
                ("Container " ++ cfgC4.container_name.getD ""
                  ++ " is not running.")),
               [EngineCall.run (inspectIdCmd cfgC4 (cfgC4.container_name.getD ""))
                  cfgC4.pull_timeout false,
                EngineCall.run (inspectRunningCmd cfgC4 (cfgC4.container_name.getD ""))
                  cfgC4.pull_timeout false]))
        ∧ (pyLower (pyStrip (oracleC4 1).stdout) = "true" →
            dockerInit cfgC4 "deadbeef" oracleC4
              = (Except.ok ⟨cfgC4, cfgC4.manage_container.getD false,
                    some (pyStrip (oracleC4 0).stdout)⟩,
                 [EngineCall.run (inspectIdCmd cfgC4 (cfgC4.container_name.getD ""))
                    cfgC4.pull_timeout false,
                  EngineCall.run (inspectRunningCmd cfgC4 (cfgC4.container_name.getD ""))
                    cfgC4.pull_timeout false]))) :=
  claim_C4_adopt_name cfgC4 "deadbeef" oracleC4 rfl rfl (by decide) (by decide)

/-- Claim C9: for a configuration with a truthy image, no truthy id or name,
and the ownership flag unspecified, when the start process finishes within
the pull bound with exit status 0, acquisition issues exactly one engine
call — `run` in detached mode with the synthesized `minisweagent-` name,
the configured working directory, the extra run arguments, the image and the
`sleep <max-duration>` command, bounded by `pull_timeout` (not the command
`timeout`) — and the instance's handle is the call's stripped stdout with
ownership true. -/
theorem claim_C9_start_new (cfg : DockerEnvironmentConfig) (uuidHex8 : String)
    (oracle : Nat → ProcessBehavior)
    (him : pyTruthyStr cfg.image = true)
    (hid : pyTruthyStr cfg.container_id = false)
    (hname : pyTruthyStr cfg.container_name = false)
    (hmc : cfg.manage_container = none)
    (hdur : (oracle 0).duration ≤ cfg.pull_timeout)
    (hrc : (oracle 0).returncode = 0) :
    dockerInit cfg uuidHex8 oracle
      = (Except.ok ⟨cfg, true, some (pyStrip (oracle 0).stdout)⟩,
         [EngineCall.run
            ([cfg.executable, "run", "-d", "--name", "minisweagent-" ++ uuidHex8,
              "-w", cfg.cwd]
              ++ cfg.run_args ++ [cfg.image.getD "", "sleep", cfg.container_timeout])
            cfg.pull_timeout false]) := by
  have h0 := runCheck_ok (oracle 0) cfg.pull_timeout hdur hrc
  simp [dockerInit, startContainer, startContainerCmd, him, hid, hname, hmc, h0]

/-- Witness for C9: an image-only configuration starting container id
`cid99`. -/
theorem claim_C9_start_new_witness :
    dockerInit { image := some "alpine" } "cafe0123" (fun _ => ⟨5, "cid99\n", 0⟩)
      = (Except.ok ⟨{ image := some "alpine" }, true,
            some (pyStrip ((fun _ => (⟨5, "cid99\n", 0⟩ : ProcessBehavior)) 0).stdout)⟩,
         [EngineCall.run
            ([({ image := some "alpine" } : DockerEnvironmentConfig).executable,
              "run", "-d", "--name", "minisweagent-" ++ "cafe0123", "-w",
              ({ image := some "alpine" } : DockerEnvironmentConfig).cwd]
              ++ ({ image := some "alpine" } : DockerEnvironmentConfig).run_args
              ++ [({ image := some "alpine" } : DockerEnvironmentConfig).image.getD "",
                  "sleep",
                  ({ image := some "alpine" } : DockerEnvironmentConfig).container_timeout])
            ({ image := some "alpine" } : DockerEnvironmentConfig).pull_timeout false]) :=
  claim_C9_start_new { image := some "alpine" } "cafe0123"
    (fun _ => ⟨5, "cid99\n", 0⟩) rfl rfl rfl rfl (by decide) (by decide)

/-- Claim C6: the exec invocation's flag sequence injects the forwarded
pairs first — each forward-list name in configured order, read from the
invoking process's environment at call time, absent names silently
skipped — followed by every explicit `env` pair; so when a name is in the
forward-list with host value `va` and appears in `env` with value `ve`
(`va ≠ ve`), the forwarded flag is genuinely injected and yet the effective
value (last flag wins, per the engine semantics fixed in the spec) is `ve`. -/
theorem claim_C6_env_layering (e : DockerEnvironment)
    (hostEnv : String → Option String) (command cwd : String)
    (timeout : Option Nat) (behavior : ProcessBehavior)
    (name va ve : String)
    (hcid : pyTruthyStr e.container_id = true)
    (hfwd : name ∈ e.config.forward_env)
    (hhost : hostEnv name = some va)
    (henv : e.config.env.filter (fun kv => kv.1 = name) = [(name, ve)])
    (_hne : va ≠ ve) :
    (execute e hostEnv command cwd timeout behavior).2
      = [EngineCall.run
          ([e.config.executable, "exec", "-w", pyOrStr cwd e.config.cwd]
            ++ envFlags (forwardedPairs e.config.forward_env hostEnv ++ e.config.env)
            ++ [e.container_id.getD "", "bash", "-lc", command])
          (effTimeout timeout e.config.timeout) true]
    ∧ (name, va) ∈ forwardedPairs e.config.forward_env hostEnv
    ∧ effectiveEnvValue
        (forwardedPairs e.config.forward_env hostEnv ++ e.config.env) name
      = some ve := by
  refine ⟨?_, ?_, ?_⟩
  · rw [execute_trace e hostEnv command cwd timeout behavior hcid,
      buildExecCmd_eq]
  · unfold forwardedPairs
    exact List.mem_filterMap.mpr ⟨name, hfwd, by rw [hhost]; rfl⟩
  · exact effectiveEnvValue_append_unique _ _ name ve henv

/-- Concrete instance for the executor witnesses: adopted container `abc`,
forward-list `[PATH, HOME]`, explicit mapping `PATH=/container/bin`. -/
def envC6 : DockerEnvironment :=
  ⟨{ container_id := some "abc",
     env := [("PATH", "/container/bin")],
     forward_env := ["PATH", "HOME"] }, false, some "abc"⟩

/-- Concrete host environment for the executor witnesses: `PATH` is set
(differing from the explicit mapping), `HOME` is absent. -/
def hostEnvC6 : String → Option String :=
  fun name => if name = "PATH" then some "/host/bin" else none

/-- Witness for C6: with `PATH` forwarded from the host as `/host/bin` and
mapped explicitly to `/container/bin`, both flags are injected — forwarded
first — and the explicit value wins. -/
theorem claim_C6_env_layering_witness :
    (execute envC6 hostEnvC6 "echo hi" "" none ⟨1, "hi\n", 0⟩).2
      = [EngineCall.run
          ([envC6.config.executable, "exec", "-w", pyOrStr "" envC6.config.cwd]
            ++ envFlags (forwardedPairs envC6.config.forward_env hostEnvC6
                ++ envC6.config.env)
            ++ [envC6.container_id.getD "", "bash", "-lc", "echo hi"])
          (effTimeout none envC6.config.timeout) true]
    ∧ ("PATH", "/host/bin") ∈ forwardedPairs envC6.config.forward_env hostEnvC6
    ∧ effectiveEnvValue
        (forwardedPairs envC6.config.forward_env hostEnvC6 ++ envC6.config.env)
        "PATH"
      = some "/container/bin" :=
  claim_C6_env_layering envC6 hostEnvC6 "echo hi" "" none ⟨1, "hi\n", 0⟩
    "PATH" "/host/bin" "/container/bin" rfl (by decide) rfl (by decide) (by decide)

/-- Claim C7: when the spawned process finishes within the effective bound,
`execute` returns the execution result carrying the process's merged output
text and its integer exit status — whatever that status is, including
nonzero — and never an error; the single issued exec call has stderr merged
into stdout (`mergeStderr = true`). -/
theorem claim_C7_result_data (e : DockerEnvironment)
    (hostEnv : String → Option String) (command cwd : String)
    (timeout : Option Nat) (b : ProcessBehavior)
    (hcid : pyTruthyStr e.container_id = true)
    (hdur : b.duration ≤ effTimeout timeout e.config.timeout) :
    execute e hostEnv command cwd timeout b
      = (Except.ok ⟨b.stdout, b.returncode⟩,
         [EngineCall.run
            (buildExecCmd e.config (e.container_id.getD "") hostEnv command
              (pyOrStr cwd e.config.cwd))
            (effTimeout timeout e.config.timeout) true]) := by
  simp [execute, hcid, runProcess, Nat.not_lt.mpr hdur]

/-- Witness for C7 with a failing command: exit status 7 is returned as
normal result data. -/
theorem claim_C7_result_data_witness :
    execute envC6 hostEnvC6 "false" "" none ⟨1, "boom\n", 7⟩
      = (Except.ok ⟨"boom\n", 7⟩,
         [EngineCall.run
            (buildExecCmd envC6.config (envC6.container_id.getD "") hostEnvC6
              "false" (pyOrStr "" envC6.config.cwd))
            (effTimeout none envC6.config.timeout) true]) :=
  claim_C7_result_data envC6 hostEnvC6 "false" "" none ⟨1, "boom\n", 7⟩
    rfl (by decide)

/-- Claim C8: when the spawned process outlives the effective bound (the
override when truthy, else the configured default), `execute` surfaces the
`TimeoutExpired` failure, and in particular is never a successful result for
any output value. -/
theorem claim_C8_timeout_failure (e : DockerEnvironment)
    (hostEnv : String → Option String) (command cwd : String)
    (timeout : Option Nat) (b : ProcessBehavior)
    (hcid : pyTruthyStr e.container_id = true)
    (hdur : effTimeout timeout e.config.timeout < b.duration) :
    execute e hostEnv command cwd timeout b
      = (Except.error PyError.timeoutExpired,
         [EngineCall.run
            (buildExecCmd e.config (e.container_id.getD "") hostEnv command
              (pyOrStr cwd e.config.cwd))
            (effTimeout timeout e.config.timeout) true])
    ∧ ∀ r : ExecutionResult,
        (execute e hostEnv command cwd timeout b).1 ≠ Except.ok r := by
  have h : execute e hostEnv command cwd timeout b
      = (Except.error PyError.timeoutExpired,
         [EngineCall.run
            (buildExecCmd e.config (e.container_id.getD "") hostEnv command
              (pyOrStr cwd e.config.cwd))
            (effTimeout timeout e.config.timeout) true]) := by
    simp [execute, hcid, runProcess, hdur]
  exact ⟨h, by rw [h]; intro r hr; exact Except.noConfusion hr⟩

/-- Witness for C8: a 5-second process against a 1-second override is a
timeout failure, not a truncated success. -/
theorem claim_C8_timeout_failure_witness :
    (execute envC6 hostEnvC6 "sleep 5" "" (some 1) ⟨5, "", 0⟩
      = (Except.error PyError.timeoutExpired,
         [EngineCall.run
            (buildExecCmd envC6.config (envC6.container_id.getD "") hostEnvC6
              "sleep 5" (pyOrStr "" envC6.config.cwd))
            (effTimeout (some 1) envC6.config.timeout) true]))
    ∧ ∀ r : ExecutionResult,
        (execute envC6 hostEnvC6 "sleep 5" "" (some 1) ⟨5, "", 0⟩).1
          ≠ Except.ok r :=
  claim_C8_timeout_failure envC6 hostEnvC6 "sleep 5" "" (some 1) ⟨5, "", 0⟩
    rfl (by decide)

/-- Claim C10: falsy per-call overrides fall back to configuration defaults:
an empty `cwd` argument makes `execute` behave exactly as if the configured
default directory had been passed, a `0` timeout exactly as if no override
had been given (so the configured default bound applies); and concretely the
call issued with both falsy overrides is bounded by the configured `timeout`
and targets the configured `cwd`. -/
theorem claim_C10_falsy_overrides (e : DockerEnvironment)
    (hostEnv : String → Option String) (command w : String)
    (timeout : Option Nat) (b : ProcessBehavior) :
    execute e hostEnv command "" timeout b
      = execute e hostEnv command e.config.cwd timeout b
    ∧ execute e hostEnv command w (some 0) b
      = execute e hostEnv command w none b
    ∧ (pyTruthyStr e.container_id = true →
        (execute e hostEnv command "" (some 0) b).2
          = [EngineCall.run
              (buildExecCmd e.config (e.container_id.getD "") hostEnv command
                e.config.cwd)
              e.config.timeout true]) := by
  refine ⟨?_, rfl, ?_⟩
  · simp only [execute, pyOrStr_empty, pyOrStr_self]
  · intro hcid
    rw [execute_trace e hostEnv command "" (some 0) b hcid]
    rfl

/-- Witness for C10's third conjunct at the concrete executor instance. -/
theorem claim_C10_falsy_overrides_witness :
    (execute envC6 hostEnvC6 "pwd" "" none ⟨1, "/\n", 0⟩
      = execute envC6 hostEnvC6 "pwd" envC6.config.cwd none ⟨1, "/\n", 0⟩)
    ∧ (execute envC6 hostEnvC6 "pwd" "/tmp" (some 0) ⟨1, "/\n", 0⟩
        = execute envC6 hostEnvC6 "pwd" "/tmp" none ⟨1, "/\n", 0⟩)
    ∧ (pyTruthyStr envC6.container_id = true →
        (execute envC6 hostEnvC6 "pwd" "" (some 0) ⟨1, "/\n", 0⟩).2
          = [EngineCall.run
              (buildExecCmd envC6.config (envC6.container_id.getD "") hostEnvC6
                "pwd" envC6.config.cwd)
              envC6.config.timeout true]) :=
  claim_C10_falsy_overrides envC6 hostEnvC6 "pwd" "/tmp" none ⟨1, "/\n", 0⟩
